import Mathlib

/-!
Verification of the Deolang execution engine.

The definitions below are a shallow embedding of the interpreter in
`src/deolang/interpreter.py` together with its grid map
`src/deolang/gridmap.py`.  The opcode lookup tables `DIRECTIONS`,
`TURN_RIGHT` and `TURN_LEFT` are imported by that file from
`deolang.constants`; that module is not in the tree, but the repository
contains two identical copies of the tables (`src/src/interpreter.py`
lines 6-25 and `src/debugger/debugger.py`), which we transcribe here.

Conventions of the embedding:
* Python lists used as stacks push/pop at the end; we represent them as
  Lean lists with the top of the stack at the head.
* `process_char` can return `True` (continue), `False` (halt) or the
  caught `IndexError` instance (a stack-underflow fault); these are the
  `StepRes` constructors `cont` / `halt` / `fault`.  Exceptions that the
  `except IndexError` clause does not catch escape the method; they are
  the `Except.error` case of the result.
* Machine-level state mutation is explicit state passing: every branch
  returns the updated `InterpState`.
-/

namespace Deolang

/-- Direction table from `src/src/interpreter.py` (the copy of
`deolang.constants.DIRECTIONS` kept in the repository): maps the four
direction opcodes to unit vectors, in (x, y) screen coordinates with y
growing downwards. -/
def DIRECTIONS (c : Char) : Option (Int × Int) :=
  if c = '^' then some (0, -1)
  else if c = '>' then some (1, 0)
  else if c = '<' then some (-1, 0)
  else if c = 'V' then some (0, 1)
  else none

/-- Turn-right table from `src/src/interpreter.py` lines 13-18.  A Python
dict lookup on a key outside the four unit vectors raises `KeyError`,
modelled by `none`. -/
def TURN_RIGHT (d : Int × Int) : Option (Int × Int) :=
  if d = ((0 : Int), (-1 : Int)) then some (1, 0)
  else if d = ((1 : Int), (0 : Int)) then some (0, 1)
  else if d = ((-1 : Int), (0 : Int)) then some (0, -1)
  else if d = ((0 : Int), (1 : Int)) then some (-1, 0)
  else none

/-- Turn-left table from `src/src/interpreter.py` lines 20-25. -/
def TURN_LEFT (d : Int × Int) : Option (Int × Int) :=
  if d = ((0 : Int), (-1 : Int)) then some (-1, 0)
  else if d = ((1 : Int), (0 : Int)) then some (0, -1)
  else if d = ((-1 : Int), (0 : Int)) then some (0, 1)
  else if d = ((0 : Int), (1 : Int)) then some (1, 0)
  else none

/-- The four unit direction vectors (values of `DIRECTIONS`). -/
def unitDirs : List (Int × Int) := [(0, -1), (1, 0), (-1, 0), (0, 1)]

/-- Iterated application of a turn table through the optional (KeyError)
results. -/
def turnIter (t : Int × Int → Option (Int × Int)) : Nat → Int × Int → Option (Int × Int)
  | 0, d => some d
  | n + 1, d => (t d).bind (turnIter t n)

/-- Mutable state of `deolang.interpreter.Interpreter` (`__init__`,
lines 10-26 of `src/deolang/interpreter.py`).  In interactive mode the
Python object never assigns `input` / `input_pointer`; we keep them at
their defaults `[]` / `0` there, which no claim observes. -/
structure InterpState where
  stack : List Int
  addition_stack : List Int
  output : List String
  x : Int
  y : Int
  direction : Int × Int
  ignore_mode : Bool
  built_in_input : Bool
  input : List Char
  input_pointer : Nat
deriving Repr, DecidableEq

/-- `Interpreter.__init__`: Python `if program_input:` is true only for a
non-None, non-empty string. -/
def initInterp (program_input : Option (List Char)) : InterpState :=
  match program_input with
  | some s =>
    if s = [] then
      ⟨[], [], [], 0, 0, (0, 0), false, true, [], 0⟩
    else
      ⟨[], [], [], 0, 0, (0, 0), false, false, s, 0⟩
  | none => ⟨[], [], [], 0, 0, (0, 0), false, true, [], 0⟩

/-- The interpreter constructed as `Interpreter()` (no external input). -/
def deoInit : InterpState := initInterp none

/-- The three values `process_char` can return: Python `True` (continue),
`False` (halt), or the caught `IndexError` instance (stack-underflow
fault returned, not raised). -/
inductive StepRes
  | cont
  | halt
  | fault
deriving Repr, DecidableEq

/-- Exceptions that escape `process_char` (its `except` clause catches
only `IndexError`). -/
inductive PyExn
  | notImplementedError
  | zeroDivisionError
  | keyError
  | valueError
deriving Repr, DecidableEq

/-- The unconditional pointer move at the end of `process_char`:
`self.x += self.direction[0]; self.y += self.direction[1]`. -/
def advance (st : InterpState) : InterpState :=
  { st with x := st.x + st.direction.1, y := st.y + st.direction.2 }

/-- `Interpreter.process_char` of `src/deolang/interpreter.py`, branch for
branch.  `char = none` models the empty string (blank cell).  Each
branch that pops leaves behind exactly the partial mutation the Python
code performed before the `IndexError` was raised; a faulted step
returns without the final position update.  Notes on Python semantics
kept faithful here: `isdigit` is restricted to ASCII digits (the only
ones a grid cell can hold after parsing), `a // b` is floor division,
`chr` rejects code points outside [0, 0x110000) with `ValueError`
(Lean `Char` cannot represent surrogate code points; no claim touches
them), and instruction `I` raises `NotImplementedError` (its body is
commented out in this revision). -/
def process_char (st : InterpState) (char : Option Char) : Except PyExn (StepRes × InterpState) :=
  match char with
  | none => .ok (.halt, st)
  | some c =>
    if st.ignore_mode then
      let st1 := if c = '|' ∨ c = '_' then { st with ignore_mode := false } else st
      .ok (.cont, advance st1)
    else
      match DIRECTIONS c with
      | some d => .ok (.cont, advance { st with direction := d })
      | none =>
        if c.isDigit then
          .ok (.cont, advance { st with stack := ((c.toNat : Int) - 48) :: st.stack })
        else if c = '+' then
          match st.stack with
          | b :: a :: rest => .ok (.cont, advance { st with stack := (a + b) :: rest })
          | [_] => .ok (.fault, { st with stack := [] })
          | [] => .ok (.fault, st)
        else if c = '-' then
          match st.stack with
          | b :: a :: rest => .ok (.cont, advance { st with stack := (a - b) :: rest })
          | [_] => .ok (.fault, { st with stack := [] })
          | [] => .ok (.fault, st)
        else if c = '*' then
          match st.stack with
          | b :: a :: rest => .ok (.cont, advance { st with stack := (a * b) :: rest })
          | [_] => .ok (.fault, { st with stack := [] })
          | [] => .ok (.fault, st)
        else if c = '%' then
          match st.stack with
          | b :: a :: rest =>
            if b = 0 then .error .zeroDivisionError
            else .ok (.cont, advance { st with stack := (Int.fdiv a b) :: rest })
          | [_] => .ok (.fault, { st with stack := [] })
          | [] => .ok (.fault, st)
        else if c = 'P' then
          match st.stack with
          | _ :: rest => .ok (.cont, advance { st with stack := rest })
          | [] => .ok (.fault, st)
        else if c = 'N' then
          match st.stack with
          | v :: rest =>
            .ok (.cont, advance { st with stack := rest, output := st.output ++ [toString v] })
          | [] => .ok (.fault, st)
        else if c = 'A' then
          match st.stack with
          | v :: rest =>
            if v < 0 ∨ (1114112 : Int) ≤ v then .error .valueError
            else
              .ok (.cont, advance { st with stack := rest, output := st.output ++ [String.singleton (Char.ofNat v.toNat)] })
          | [] => .ok (.fault, st)
        else if c = 'D' then
          match st.stack with
          | v :: rest =>
            .ok (.cont, advance { st with stack := rest, addition_stack := v :: st.addition_stack })
          | [] => .ok (.fault, st)
        else if c = 'U' then
          match st.addition_stack with
          | v :: rest =>
            .ok (.cont, advance { st with addition_stack := rest, stack := v :: st.stack })
          | [] => .ok (.fault, st)
        else if c = 'C' then
          match st.stack with
          | v :: _ => .ok (.cont, advance { st with stack := v :: st.stack })
          | [] => .ok (.fault, st)
        else if c = 'I' then
          .error .notImplementedError
        else if c = '|' ∨ c = '_' then
          if c = '|' ∧ (st.direction = ((-1 : Int), (0 : Int)) ∨ st.direction = ((1 : Int), (0 : Int))) then
            .ok (.cont, advance { st with ignore_mode := true })
          else if c = '_' ∧ (st.direction = ((0 : Int), (-1 : Int)) ∨ st.direction = ((0 : Int), (1 : Int))) then
            .ok (.cont, advance { st with ignore_mode := true })
          else
            .ok (.cont, advance st)
        else if c = '/' then
          match st.stack with
          | v :: rest =>
            match (if v = 0 then TURN_LEFT st.direction else TURN_RIGHT st.direction) with
            | some d => .ok (.cont, advance { st with stack := rest, direction := d })
            | none => .error .keyError
          | [] => .ok (.fault, st)
        else if c = '\\' then
          match st.stack with
          | v :: rest =>
            match (if v = 0 then TURN_RIGHT st.direction else TURN_LEFT st.direction) with
            | some d => .ok (.cont, advance { st with stack := rest, direction := d })
            | none => .error .keyError
          | [] => .ok (.fault, st)
        else
          .ok (.cont, advance st)

/-- `Interpreter.reset` of `src/deolang/interpreter.py` lines 136-140: it
reassigns the two stacks, the output, the position and the direction —
and nothing else. -/
def reset (st : InterpState) : InterpState :=
  { st with stack := [], addition_stack := [], output := [],
            x := 0, y := 0, direction := (0, 0) }

/-- One step of the character loop in `GridMap.__init__`
(`src/deolang/gridmap.py`): a newline flushes the pending row, a space
appends a blank cell (the empty string, modelled `none`), any other
character appends itself; at end of input a non-empty pending row is
kept.  The rectangularity / non-emptiness checks of the constructor are
not needed by any claim and are omitted. -/
def parseGridGo : List Char → List (Option Char) → List (List (Option Char))
  | [], temp => if temp = [] then [] else [temp]
  | c :: rest, temp =>
    if c = '\n' then temp :: parseGridGo rest []
    else if c = ' ' then parseGridGo rest (temp ++ [none])
    else parseGridGo rest (temp ++ [some c])

/-- Grid contents parsed from program text, rows outermost. -/
def parseGrid (src : List Char) : List (List (Option Char)) :=
  parseGridGo src []

/-- Number of rows (`self._map.shape[0]`). -/
def gridHeight (g : List (List (Option Char))) : Nat := g.length

/-- Row length (`self._map.shape[1]`); the constructor guarantees all
rows agree with row 0. -/
def gridWidth (g : List (List (Option Char))) : Nat := (g.headD []).length

/-- `GridMap.get_item` of `src/deolang/gridmap.py`: returns Python
`False` (here `none`) outside the bounds, otherwise the cell — the empty
string (`some none`, blank) or a character (`some (some c)`). -/
def get_item (g : List (List (Option Char))) (x y : Int) : Option (Option Char) :=
  if x < 0 ∨ y < 0 ∨ (gridWidth g : Int) ≤ x ∨ (gridHeight g : Int) ≤ y then none
  else some (((g.getD y.toNat []).getD x.toNat) none)

/-- Errors surfacing from `Interpreter.run`: the explicit `ValueError`
for negative step counts, the `TypeError` Python `range` raises on the
non-integer bound `float(inf)` used when `steps == 0`, and any exception
escaping `process_char`. -/
inductive RunExn
  | valueError
  | typeError
  | stepExn (e : PyExn)
deriving Repr, DecidableEq

/-- Python `range` applied to the iteration bound computed in
`Interpreter.run` (`max_iterations = steps if steps > 0 else
float(inf)`), reduced to the number of iterations it yields: an
integer bound iterates that many times, while the float infinity bound
is rejected by `range` with `TypeError` before any iteration runs. -/
def pyRangeCount : Option Nat → Except RunExn Nat
  | some n => .ok n
  | none => .error .typeError

/-- Outcome of the `for` loop body of `Interpreter.run`: either the loop
ran out of iterations, or some step returned `False` and the method
returned `False` early. -/
inductive LoopRes
  | finished (st : InterpState)
  | returnedFalse (st : InterpState)
deriving Repr, DecidableEq

/-- The `for` loop of `Interpreter.run` (lines 58-65 of
`src/deolang/interpreter.py`), with the iteration count as fuel: fetch
the cell at the current position, `continue` on a falsy cell (Python
`False` from an out-of-bounds lookup, or the blank empty string) without
calling `process_char`, otherwise step and return early only when the
result is the value `False` — any other result, the returned
`IndexError` fault included, just loops again. -/
def runFor (g : List (List (Option Char))) (st : InterpState) : Nat → Except PyExn LoopRes
  | 0 => .ok (.finished st)
  | n + 1 =>
    match get_item g st.x st.y with
    | none => runFor g st n
    | some none => runFor g st n
    | some (some c) =>
      match process_char st (some c) with
      | .error e => .error e
      | .ok (res, st1) =>
        if res = .halt then .ok (.returnedFalse st1)
        else runFor g st1 n

/-- `Interpreter.run`: rejects negative `steps` with `ValueError`, builds
the iteration bound (`float(inf)` when `steps == 0`), hands it to
`range`, runs the loop, and finally returns `0 < steps`. -/
def run (g : List (List (Option Char))) (st : InterpState) (steps : Int) :
    Except RunExn (Bool × InterpState) :=
  if steps < 0 then .error .valueError
  else
    match pyRangeCount (if steps > 0 then some steps.toNat else none) with
    | .error e => .error e
    | .ok n =>
      match runFor g st n with
      | .error e => .error (.stepExn e)
      | .ok (.finished st1) => .ok (decide (0 < steps), st1)
      | .ok (.returnedFalse st1) => .ok (false, st1)

/-- The program text `5N` as a grid: one row, two cells. -/
def grid5N : List (List (Option Char)) := parseGrid ['5', 'N']

/-- The one-cell program `+` (an immediately underflowing opcode). -/
def gridPlus : List (List (Option Char)) := parseGrid ['+']

/-- Helper: the program `5N` executed from the start position with any
stack: the initial direction is the zero vector and `5` is not a
direction opcode, so the pointer never leaves (0, 0) and each loop
iteration pushes another 5; the loop never returns `False`. -/
lemma runFor_grid5N (n : Nat) (s : List Int) :
    runFor grid5N { deoInit with stack := s } n
      = .ok (.finished { deoInit with stack := List.replicate n 5 ++ s }) := by
  induction n generalizing s with
  | zero => rfl
  | succ k ih =>
    have hstep : runFor grid5N { deoInit with stack := s } (k + 1)
        = runFor grid5N { deoInit with stack := 5 :: s } k := rfl
    rw [hstep, ih (5 :: s)]
    rw [← List.singleton_append, ← List.append_assoc, ← List.replicate_succ',
      List.replicate_succ, List.cons_append]

/-- Claim C1 (counterexample): running the one-row program `5N` for 10
steps does not halt and produces no output — the run returns `True`
(all steps consumed) with ten 5s on the stack, the pointer still at
(0, 0) and `output` empty, not the claimed halt with output `5`. -/
theorem C1_counterexample :
    run grid5N deoInit 10 = .ok (true, { deoInit with stack := List.replicate 10 5 }) := by
  rfl

/-- Claim C1 (amended): `process_char` on a blank/absent cell does return
Halt, but the batch run loop never halts on `5N`: it skips falsy cells
with `continue` without calling the step function, and since the
initial direction is the zero vector and `5N` contains no direction
opcode, the pointer stays at (0, 0), each iteration pushes another 5,
and for every positive step count the run returns `True` with empty
output instead of halting with output `5`. -/
theorem C1_amended :
    (∀ st : InterpState, process_char st none = .ok (.halt, st))
  ∧ (∀ (n : Nat) (s : List Int),
      runFor grid5N { deoInit with stack := s } n
        = .ok (.finished { deoInit with stack := List.replicate n 5 ++ s }))
  ∧ (∀ steps : Int, 0 < steps →
      run grid5N deoInit steps
        = .ok (true, { deoInit with stack := List.replicate steps.toNat 5 })) := by
  refine ⟨fun st => rfl, runFor_grid5N, fun steps hpos => ?_⟩
  have h0 : ¬ steps < 0 := by omega
  have h1 : steps > 0 := hpos
  have h2 := runFor_grid5N steps.toNat []
  simp only [run, if_neg h0, if_pos h1, pyRangeCount]
  rw [show ({ deoInit with stack := [] } : InterpState) = deoInit from rfl] at h2
  rw [h2]
  simp [hpos]

/-- Claim C1 (witness for the amended claim). -/
theorem C1_witness :
    run grid5N deoInit 5 = .ok (true, { deoInit with stack := List.replicate (Int.toNat 5) 5 }) :=
  C1_amended.2.2 5 (by decide)

/-- Claim C2 (code bug): a stack-underflow fault does not end the batch
run.  On the one-cell program `+` the first step returns the
IndexError fault value with the state unchanged, yet `run` — which only
tests `result is False` — keeps looping, re-executes the same faulting
opcode five times, and returns `True` as if all steps completed
successfully, never surfacing the fault. -/
theorem C2_run_swallows_fault :
    process_char deoInit (some '+') = .ok (.fault, deoInit)
  ∧ run gridPlus deoInit 5 = .ok (true, deoInit) :=
  ⟨rfl, rfl⟩

/-- Claim C3 (code bug): from the initial state, executing `>` then `|`
(a reachable bridge entry while moving east) leaves `ignore_mode` set;
`reset` reassigns only the stacks, output, position and direction, so
the bridge flag survives it and the state after `reset` differs from
the initial state. -/
theorem C3_reset_misses_bridge_flag :
    Except.bind (process_char deoInit (some '>')) (fun p => process_char p.2 (some '|'))
      = .ok (.cont, { deoInit with direction := (1, 0), x := 2, ignore_mode := true })
  ∧ (reset { deoInit with direction := (1, 0), x := 2, ignore_mode := true }).ignore_mode = true
  ∧ reset { deoInit with direction := (1, 0), x := 2, ignore_mode := true } ≠ deoInit := by
  refine ⟨rfl, rfl, ?_⟩
  decide

/-- Claim C6 (counterexample): with a configured fixed input `ab` and the
cursor at 0, executing `I` does not push a code point — it raises
`NotImplementedError` (the instruction body is commented out), an
exception the IndexError handler does not catch. -/
theorem C6_counterexample :
    process_char (initInterp (some ['a', 'b'])) (some 'I') = .error .notImplementedError
  ∧ ∀ (res : StepRes) (t : InterpState),
      process_char (initInterp (some ['a', 'b'])) (some 'I') ≠ .ok (res, t) := by
  refine ⟨rfl, fun res t h => ?_⟩
  rw [show process_char (initInterp (some ['a', 'b'])) (some 'I')
        = .error .notImplementedError from rfl] at h
  exact Except.noConfusion h

/-- Claim C6 (amended): in every state with bridge mode off — fixed-input
or interactive alike — executing `I` raises `NotImplementedError`,
which escapes `process_char`; the fixed-input push-and-advance
behavior exists only as commented-out code in this revision. -/
theorem C6_amended :
    ∀ st : InterpState, st.ignore_mode = false →
      process_char st (some 'I') = .error .notImplementedError := by
  intro st h
  obtain ⟨stk, ads, out, x, y, dir, im, bi, inp, ip⟩ := st
  cases h
  rfl

/-- Claim C6 (witness for the amended claim). -/
theorem C6_witness :
    process_char deoInit (some 'I') = .error .notImplementedError :=
  C6_amended deoInit rfl

/-- Claim C7 (counterexample): the turn-right table does not follow the
cycle north→west→south→east claimed for it: applied to north (0, -1)
it yields east (1, 0), not west (-1, 0). -/
theorem C7_counterexample : TURN_RIGHT (0, -1) ≠ some (-1, 0) := by
  decide

/-- Claim C7 (amended): turn right follows the 4-cycle
north→east→south→west→north and turn left its reverse; on the four
unit vectors the two tables are mutual inverses, four consecutive left
turns restore any unit direction, and three consecutive right turns
equal one left turn. -/
theorem C7_turn_tables :
    (TURN_RIGHT (0, -1) = some (1, 0) ∧ TURN_RIGHT (1, 0) = some (0, 1)
      ∧ TURN_RIGHT (0, 1) = some (-1, 0) ∧ TURN_RIGHT (-1, 0) = some (0, -1))
  ∧ (∀ d ∈ unitDirs, (TURN_RIGHT d).bind TURN_LEFT = some d
      ∧ (TURN_LEFT d).bind TURN_RIGHT = some d)
  ∧ (∀ d ∈ unitDirs, turnIter TURN_LEFT 4 d = some d)
  ∧ (∀ d ∈ unitDirs, turnIter TURN_RIGHT 3 d = TURN_LEFT d) := by
  decide

/-- Claim C7 (witness for the amended claim, at north). -/
theorem C7_witness :
    (TURN_RIGHT (0, -1)).bind TURN_LEFT = some (0, -1)
  ∧ turnIter TURN_LEFT 4 (0, -1) = some (0, -1)
  ∧ turnIter TURN_RIGHT 3 (0, -1) = TURN_LEFT (0, -1) :=
  ⟨(C7_turn_tables.2.1 (0, -1) (by decide)).1,
   C7_turn_tables.2.2.1 (0, -1) (by decide),
   C7_turn_tables.2.2.2 (0, -1) (by decide)⟩

/-- Claim C8: calling `run` with `steps = 0` — the documented
run-until-termination mode — fails with `TypeError` for every program
and every state, before any step executes: the iteration bound becomes
float infinity and `range` rejects non-integers. -/
theorem C8_run_zero_typeerror :
    ∀ (g : List (List (Option Char))) (st : InterpState), run g st 0 = .error .typeError :=
  fun _ _ => rfl

/-- Claim C4: whenever the operand stack of an opcode in
`+ - * % P N A D U C` holds too few operands (fewer than two stack
entries for the binary arithmetic opcodes, an empty stack for
`P N A D C`, an empty addition stack for `U`), a normal-dispatch step on
that opcode returns the stack-underflow fault and leaves the position
and the direction exactly as they were. -/
theorem C4_underflow_no_move :
    ∀ (st : InterpState) (c : Char), st.ignore_mode = false →
      ((c = '+' ∨ c = '-' ∨ c = '*' ∨ c = '%') ∧ st.stack.length < 2
        ∨ (c = 'P' ∨ c = 'N' ∨ c = 'A' ∨ c = 'D' ∨ c = 'C') ∧ st.stack = []
        ∨ c = 'U' ∧ st.addition_stack = []) →
      ∃ t, process_char st (some c) = .ok (.fault, t)
        ∧ t.x = st.x ∧ t.y = st.y ∧ t.direction = st.direction := by
  intro st c hig h
  obtain ⟨stk, ads, out, x, y, dir, im, bi, inp, ip⟩ := st
  cases hig
  rcases h with ⟨hc, hlen⟩ | ⟨hc, hstk⟩ | ⟨hc, hads⟩
  · rcases stk with _ | ⟨b, _ | ⟨a, t⟩⟩
    · rcases hc with rfl | rfl | rfl | rfl <;> exact ⟨_, rfl, rfl, rfl, rfl⟩
    · rcases hc with rfl | rfl | rfl | rfl <;> exact ⟨_, rfl, rfl, rfl, rfl⟩
    · exfalso
      simp only [List.length_cons] at hlen
      omega
  · cases hstk
    rcases hc with rfl | rfl | rfl | rfl | rfl <;> exact ⟨_, rfl, rfl, rfl, rfl⟩
  · cases hc
    cases hads
    exact ⟨_, rfl, rfl, rfl, rfl⟩

/-- Claim C4 (witness): the empty-stack initial state faulting on `+`. -/
theorem C4_witness :
    ∃ t, process_char deoInit (some '+') = .ok (.fault, t)
      ∧ t.x = deoInit.x ∧ t.y = deoInit.y ∧ t.direction = deoInit.direction :=
  C4_underflow_no_move deoInit '+' rfl (Or.inl ⟨Or.inl rfl, by decide⟩)

/-- Claim C5: `|` enters bridge mode exactly when the direction is east
or west and `_` exactly when it is north or south (in particular moving
east over `_` does not trigger it); while `ignore_mode` is set, a step
on any character skips opcode interpretation and only advances the
position, clearing the flag precisely on `|` or `_` regardless of
axis. -/
theorem C5_bridge :
    (∀ st : InterpState, st.ignore_mode = false →
        st.direction = ((1 : Int), (0 : Int)) ∨ st.direction = ((-1 : Int), (0 : Int)) →
        process_char st (some '|') = .ok (.cont, advance { st with ignore_mode := true }))
  ∧ (∀ st : InterpState, st.ignore_mode = false →
        ¬(st.direction = ((1 : Int), (0 : Int)) ∨ st.direction = ((-1 : Int), (0 : Int))) →
        process_char st (some '|') = .ok (.cont, advance st))
  ∧ (∀ st : InterpState, st.ignore_mode = false →
        st.direction = ((0 : Int), (-1 : Int)) ∨ st.direction = ((0 : Int), (1 : Int)) →
        process_char st (some '_') = .ok (.cont, advance { st with ignore_mode := true }))
  ∧ (∀ st : InterpState, st.ignore_mode = false →
        ¬(st.direction = ((0 : Int), (-1 : Int)) ∨ st.direction = ((0 : Int), (1 : Int))) →
        process_char st (some '_') = .ok (.cont, advance st))
  ∧ (∀ (st : InterpState) (c : Char), st.ignore_mode = true →
        process_char st (some c) =
          .ok (.cont, advance (if c = '|' ∨ c = '_' then { st with ignore_mode := false } else st))) := by
  refine ⟨?_, ?_, ?_, ?_, ?_⟩
  · intro st hig hd
    obtain ⟨stk, ads, out, x, y, dir, im, bi, inp, ip⟩ := st
    cases hig
    rcases hd with rfl | rfl <;> rfl
  · intro st hig hd
    push_neg at hd
    obtain ⟨hd1, hd2⟩ := hd
    obtain ⟨stk, ads, out, x, y, dir, im, bi, inp, ip⟩ := st
    cases hig
    simp only [process_char, DIRECTIONS] at *
    simp [hd1, hd2]
  · intro st hig hd
    obtain ⟨stk, ads, out, x, y, dir, im, bi, inp, ip⟩ := st
    cases hig
    rcases hd with rfl | rfl <;> rfl
  · intro st hig hd
    push_neg at hd
    obtain ⟨hd1, hd2⟩ := hd
    obtain ⟨stk, ads, out, x, y, dir, im, bi, inp, ip⟩ := st
    cases hig
    simp only [process_char, DIRECTIONS] at *
    simp [hd1, hd2]
  · intro st c hig
    obtain ⟨stk, ads, out, x, y, dir, im, bi, inp, ip⟩ := st
    cases hig
    rfl

/-- Claim C5 (witness): concrete bridge entries, the non-entry of `_`
while moving east, and a bridging step over `5`. -/
theorem C5_witness :
    process_char { deoInit with direction := (1, 0) } (some '|')
      = .ok (.cont, advance { { deoInit with direction := ((1 : Int), (0 : Int)) } with ignore_mode := true })
  ∧ process_char { deoInit with direction := (1, 0) } (some '_')
      = .ok (.cont, advance { deoInit with direction := ((1 : Int), (0 : Int)) })
  ∧ process_char { deoInit with ignore_mode := true } (some '5')
      = .ok (.cont, advance (if ('5' = '|' ∨ '5' = '_') then
          { { deoInit with ignore_mode := true } with ignore_mode := false }
          else { deoInit with ignore_mode := true })) :=
  ⟨C5_bridge.1 _ rfl (Or.inl rfl),
   C5_bridge.2.2.2.1 _ rfl (by decide),
   C5_bridge.2.2.2.2 _ '5' rfl⟩

/-- Claim C9: executing `%` when the popped divisor is 0 raises
`ZeroDivisionError`, which the handler (covering only `IndexError`)
does not catch, so the exception escapes `process_char` instead of
becoming a fault. -/
theorem C9_modulo_zero_divisor :
    ∀ (st : InterpState) (a : Int) (rest : List Int), st.ignore_mode = false →
      st.stack = 0 :: a :: rest →
      process_char st (some '%') = .error .zeroDivisionError := by
  intro st a rest hig hstk
  obtain ⟨stk, ads, out, x, y, dir, im, bi, inp, ip⟩ := st
  cases hig
  cases hstk
  rfl

/-- Claim C9 (witness): `%` on stack top 0 over 7. -/
theorem C9_witness :
    process_char { deoInit with stack := [0, 7] } (some '%') = .error .zeroDivisionError :=
  C9_modulo_zero_divisor { deoInit with stack := [0, 7] } 7 [] rfl rfl

/-- Claim C10: executing `/` or `\` with at least one stack operand while
the direction is still the initial zero vector raises `KeyError` (the
turn tables map only the four unit vectors), an exception the
IndexError handler does not catch, so it escapes `process_char`. -/
theorem C10_turn_on_zero_direction :
    ∀ (st : InterpState) (v : Int) (rest : List Int), st.ignore_mode = false →
      st.direction = (0, 0) → st.stack = v :: rest →
      process_char st (some '/') = .error .keyError
        ∧ process_char st (some '\\') = .error .keyError := by
  intro st v rest hig hdir hstk
  obtain ⟨stk, ads, out, x, y, dir, im, bi, inp, ip⟩ := st
  cases hig
  cases hdir
  cases hstk
  by_cases hv : v = 0
  · subst hv
    exact ⟨rfl, rfl⟩
  · constructor
    · show (match (if v = 0 then TURN_LEFT (0, 0) else TURN_RIGHT (0, 0)) with
        | some d => Except.ok (StepRes.cont,
            advance { stack := rest, addition_stack := ads, output := out, x := x, y := y,
                      direction := d, ignore_mode := false, built_in_input := bi,
                      input := inp, input_pointer := ip })
        | none => Except.error PyExn.keyError) = Except.error PyExn.keyError
      rw [if_neg hv]
      rfl
    · show (match (if v = 0 then TURN_RIGHT (0, 0) else TURN_LEFT (0, 0)) with
        | some d => Except.ok (StepRes.cont,
            advance { stack := rest, addition_stack := ads, output := out, x := x, y := y,
                      direction := d, ignore_mode := false, built_in_input := bi,
                      input := inp, input_pointer := ip })
        | none => Except.error PyExn.keyError) = Except.error PyExn.keyError
      rw [if_neg hv]
      rfl

/-- Claim C10 (witness): `/` and `\` from a state with stack `[1]` and
the initial zero direction. -/
theorem C10_witness :
    process_char { deoInit with stack := [1] } (some '/') = .error .keyError
      ∧ process_char { deoInit with stack := [1] } (some '\\') = .error .keyError :=
  C10_turn_on_zero_direction { deoInit with stack := [1] } 1 [] rfl rfl rfl

end Deolang
